import Mathlib

/-!
Shallow embedding of the Renta affordability calculator.

The calculator reads eight numeric input fields, validates them, and derives
loan, debt-ratio, rental-yield and negotiation metrics together with
visibility flags.  The embedding models the numeric engine over `ℚ`
(JavaScript numbers idealised as exact rationals) with the loan term as an
integer exponent (`zpow`), a field whose parse is `NaN` as `none`, and each
guarded division site by the `if`-guard the source uses.

Two variants exist in the repository: the fuller calculator of
`src/script.js` (modelled by `Renta.calculate` and the individual metric
definitions) and the simpler one of `src/unnamed/part_000` (its payment
helper is modelled by `Renta.calculateMensualiteProjet`).
-/

namespace Renta

/-- The eight parsed input values of `src/script.js` (lines 79–86), after the
percent fields have been divided by 100.  `salaire` is monthly income,
`mensualiteActuel` existing monthly debt, `prix` the purchase price, `loyer`
the monthly rent, `tauxAnnuel` the annual rate in percent, `nbMensualites`
the loan term in months (parsed with `parseInt`, hence an integer),
`endettementMax` the acceptable debt ratio and `loyerPrisEnCompte` the
rent-inclusion ratio (both already fractions). -/
structure Inputs where
  salaire : ℚ
  mensualiteActuel : ℚ
  prix : ℚ
  loyer : ℚ
  tauxAnnuel : ℚ
  nbMensualites : ℤ
  endettementMax : ℚ
  loyerPrisEnCompte : ℚ

/-- The raw read of the eight fields: `none` models a field whose
`parseFloat` / `parseInt` result is `NaN`. -/
@[ext] structure RawInputs where
  salaire : Option ℚ
  mensualiteActuel : Option ℚ
  prix : Option ℚ
  loyer : Option ℚ
  tauxAnnuel : Option ℚ
  nbMensualites : Option ℤ
  endettementMax : Option ℚ
  loyerPrisEnCompte : Option ℚ

/-- Collecting the parsed fields; the result is `none` exactly when some
field failed to parse (one of the `isNaN` checks of line 91–92 fires). -/
def toInputs (r : RawInputs) : Option Inputs :=
  match r.salaire, r.mensualiteActuel, r.prix, r.loyer, r.tauxAnnuel,
      r.nbMensualites, r.endettementMax, r.loyerPrisEnCompte with
  | some s, some m, some p, some l, some t, some n, some e, some lp =>
      some ⟨s, m, p, l, t, n, e, lp⟩
  | _, _, _, _, _, _, _, _ => none

/-- The sign constraints of the validation block (line 93), negated: the
source rejects `salaire < 0 || mensualiteActuel < 0 || prix <= 0 ||
loyer < 0 || tauxAnnuel <= 0 || nbMensualites <= 0`. -/
def Valid (i : Inputs) : Prop :=
  0 ≤ i.salaire ∧ 0 ≤ i.mensualiteActuel ∧ 0 < i.prix ∧ 0 ≤ i.loyer ∧
    0 < i.tauxAnnuel ∧ 0 < i.nbMensualites

instance (i : Inputs) : Decidable (Valid i) := by
  unfold Valid; infer_instance

/-- `tauxMensuel = tauxAnnuel / 100 / 12` (line 104). -/
def tauxMensuel (tauxAnnuel : ℚ) : ℚ := tauxAnnuel / 100 / 12

/-- The payment-per-unit-principal factor (line 114):
`(tauxMensuel * (1+tauxMensuel)^n) / ((1+tauxMensuel)^n - 1)`. -/
def facteurPMT (tauxAnnuel : ℚ) (nbMensualites : ℤ) : ℚ :=
  tauxMensuel tauxAnnuel * (1 + tauxMensuel tauxAnnuel) ^ nbMensualites /
    ((1 + tauxMensuel tauxAnnuel) ^ nbMensualites - 1)

/-- The monthly payment `prix * facteurPMT` (line 115). -/
def mensualiteProjet (prix tauxAnnuel : ℚ) (nbMensualites : ℤ) : ℚ :=
  prix * facteurPMT tauxAnnuel nbMensualites

/-- The monthly payment of the input vector. -/
def mensualiteProjetI (i : Inputs) : ℚ :=
  mensualiteProjet i.prix i.tauxAnnuel i.nbMensualites

/-- `endettementActuelTaux` (line 108). -/
def endettementActuelTaux (i : Inputs) : ℚ :=
  if 0 < i.salaire then i.mensualiteActuel / i.salaire else 0

/-- `capaciteEndettement = endettementMax * salaire` (line 110). -/
def capaciteEndettement (i : Inputs) : ℚ := i.endettementMax * i.salaire

/-- `cashflow = loyer - mensualiteProjet` (line 118); computed
unconditionally, with no fallback. -/
def cashflow (i : Inputs) : ℚ := i.loyer - mensualiteProjetI i

/-- `endettementProjetSeulTaux` (line 119). -/
def endettementProjetSeulTaux (i : Inputs) : ℚ :=
  if 0 < i.loyer then mensualiteProjetI i / i.loyer else 0

/-- The gross-yield formula of line 120, as a function of the price it is
evaluated at: `prix > 0 && loyer > 0 ? ((loyer * 12) / prix) * 100 : 0`. -/
def rendementBrutAt (prix loyer : ℚ) : ℚ :=
  if 0 < prix ∧ 0 < loyer then loyer * 12 / prix * 100 else 0

/-- `rendementBrut` (line 120): the gross-yield formula at the input price. -/
def rendementBrut (i : Inputs) : ℚ := rendementBrutAt i.prix i.loyer

/-- `part1 = (1 - (1+tauxMensuel)^(-n)) / tauxMensuel` (line 123), the
present-value-of-annuity factor. -/
def part1 (i : Inputs) : ℚ :=
  (1 - (1 + tauxMensuel i.tauxAnnuel) ^ (-i.nbMensualites)) /
    tauxMensuel i.tauxAnnuel

/-- `rendementSouhaite = (12 / (endettementMax * part1)) * 100` (line 125);
this division carries no guard in the source. -/
def rendementSouhaite (i : Inputs) : ℚ :=
  12 / (i.endettementMax * part1 i) * 100

/-- `prixCibleRendement` (line 128). -/
def prixCibleRendement (i : Inputs) : ℚ :=
  if 0 < rendementSouhaite i ∧ 0 < i.loyer then
    i.loyer * 12 / (rendementSouhaite i / 100)
  else 0

/-- `reductionCible` (line 129). -/
def reductionCible (i : Inputs) : ℚ :=
  if 0 < i.prix then (i.prix - prixCibleRendement i) / i.prix * 100 else 0

/-- `capaciteEmpruntLocative` (line 132). -/
def capaciteEmpruntLocative (i : Inputs) : ℚ :=
  i.endettementMax * (i.loyerPrisEnCompte * i.loyer)

/-- `capaciteMensualite` (line 136). -/
def capaciteMensualite (i : Inputs) : ℚ :=
  capaciteEndettement i + capaciteEmpruntLocative i - mensualiteProjetI i -
    i.mensualiteActuel

/-- `denominateurDette = loyer + salaire` (line 139). -/
def denominateurDette (i : Inputs) : ℚ := i.loyer + i.salaire

/-- `endettementTotalTaux` (line 140). -/
def endettementTotalTaux (i : Inputs) : ℚ :=
  if 0 < denominateurDette i then
    (mensualiteProjetI i + i.mensualiteActuel) / denominateurDette i
  else 0

/-- `mensualiteCible = endettementMax * denominateurDette - mensualiteActuel`
(line 143). -/
def mensualiteCible (i : Inputs) : ℚ :=
  i.endettementMax * denominateurDette i - i.mensualiteActuel

/-- `prixAcceptable` (lines 144–147): `mensualiteCible / facteurPMT` when
both are positive, else `0`. -/
def prixAcceptable (i : Inputs) : ℚ :=
  if 0 < mensualiteCible i ∧ 0 < facteurPMT i.tauxAnnuel i.nbMensualites then
    mensualiteCible i / facteurPMT i.tauxAnnuel i.nbMensualites
  else 0

/-- `reductionMinimum` (line 148). -/
def reductionMinimum (i : Inputs) : ℚ :=
  if 0 < i.prix then (i.prix - prixAcceptable i) / i.prix * 100 else 0

/-- `isRentalProject = loyer > 0` (line 162). -/
def isRentalProject (i : Inputs) : Bool := decide (0 < i.loyer)

/-- The target-price block is shown when the project is rental and
`prix >= prixCibleRendement` (lines 168, 179–181). -/
def shouldShowTargetPrice (i : Inputs) : Bool :=
  isRentalProject i && decide (prixCibleRendement i ≤ i.prix)

/-- `isNegotiationRequired = prix > prixAcceptable` (line 190). -/
def isNegotiationRequired (i : Inputs) : Bool :=
  decide (prixAcceptable i < i.prix)

/-- The output bundle a Valid computation produces. -/
structure DerivedResult where
  endettementActuelTaux : ℚ
  capaciteEndettement : ℚ
  mensualiteProjet : ℚ
  cashflow : ℚ
  endettementProjetSeulTaux : ℚ
  rendementBrut : ℚ
  rendementSouhaite : ℚ
  prixCibleRendement : ℚ
  reductionCible : ℚ
  capaciteEmpruntLocative : ℚ
  capaciteMensualite : ℚ
  endettementTotalTaux : ℚ
  prixAcceptable : ℚ
  reductionMinimum : ℚ
  isRentalProject : Bool
  shouldShowTargetPrice : Bool
  isNegotiationRequired : Bool

/-- Packaging every derived metric and flag. -/
def derive (i : Inputs) : DerivedResult :=
  ⟨endettementActuelTaux i, capaciteEndettement i, mensualiteProjetI i,
    cashflow i, endettementProjetSeulTaux i, rendementBrut i,
    rendementSouhaite i, prixCibleRendement i, reductionCible i,
    capaciteEmpruntLocative i, capaciteMensualite i, endettementTotalTaux i,
    prixAcceptable i, reductionMinimum i, isRentalProject i,
    shouldShowTargetPrice i, isNegotiationRequired i⟩

/-- One computation: parse, validate (lines 91–98; an invalid vector returns
early with no result), then derive. -/
def calculate (r : RawInputs) : Option DerivedResult :=
  match toInputs r with
  | none => none
  | some i => if Valid i then some (derive i) else none

/-- One computation together with its effect on the persistence store.  The
source's invalid branch returns before `saveData` is reached; the valid path
ends with exactly one `saveData()` call (line 201), which snapshots the
current inputs.  `writes` counts the `saveData` calls of the cycle. -/
structure CycleResult where
  store : RawInputs
  writes : ℕ
  result : Option DerivedResult

/-- The store transition of one `calculate` call. -/
def calculateCycle (store : RawInputs) (r : RawInputs) : CycleResult :=
  match toInputs r with
  | none => ⟨store, 0, none⟩
  | some i =>
      if Valid i then ⟨r, 1, some (derive i)⟩ else ⟨store, 0, none⟩

/-- The payment helper of the simpler variant
(`src/unnamed/part_000`, lines 140–144): a zero rate falls back to
`capital / dureeMois`, otherwise the closed-form annuity payment
`capital * tauxMensuel / (1 - (1 + tauxMensuel)^(-dureeMois))` with
`tauxMensuel = tauxAnnuel / 1200`. -/
def calculateMensualiteProjet (capital tauxAnnuel : ℚ) (dureeMois : ℤ) : ℚ :=
  if tauxAnnuel = 0 then capital / (dureeMois : ℚ)
  else
    capital * (tauxAnnuel / 1200) /
      (1 - (1 + tauxAnnuel / 1200) ^ (-dureeMois))

/-- Each division site of the valid path of `calculate`, with the guard the
source wraps it in: the site's divisor is nonzero whenever its guard holds.
Sites with constant divisors (the `/100`, `/12`, `/1200`) are omitted.  In
source order: line 108 (`/ salaire`), line 114 (`facteurPMT`'s denominator),
line 119 (`/ loyer`), line 120 (`/ prix`), line 123 (`/ tauxMensuel`),
line 125 (`/ (endettementMax * part1)`, unguarded), line 128
(`/ (rendementSouhaite / 100)`), lines 129 and 148 (`/ prix`), line 140
(`/ denominateurDette`), line 146 (`/ facteurPMT`). -/
def divisionsGuarded (i : Inputs) : Prop :=
  (0 < i.salaire → i.salaire ≠ 0) ∧
  ((1 + tauxMensuel i.tauxAnnuel) ^ i.nbMensualites - 1 ≠ 0) ∧
  (0 < i.loyer → i.loyer ≠ 0) ∧
  (0 < i.prix ∧ 0 < i.loyer → i.prix ≠ 0) ∧
  (tauxMensuel i.tauxAnnuel ≠ 0) ∧
  (i.endettementMax * part1 i ≠ 0) ∧
  (0 < rendementSouhaite i ∧ 0 < i.loyer → rendementSouhaite i / 100 ≠ 0) ∧
  (0 < i.prix → i.prix ≠ 0) ∧
  (0 < denominateurDette i → denominateurDette i ≠ 0) ∧
  (0 < mensualiteCible i ∧ 0 < facteurPMT i.tauxAnnuel i.nbMensualites →
    facteurPMT i.tauxAnnuel i.nbMensualites ≠ 0)

instance (i : Inputs) : Decidable (divisionsGuarded i) := by
  unfold divisionsGuarded; infer_instance

/-- A Valid sample vector with `loyer = 0`:
price 100, rate 12 % over 1 month, no income, no existing debt,
debt-ratio field 35 % and rent-inclusion field 70 %. -/
def sample : Inputs := ⟨0, 0, 100, 0, 12, 1, 7/20, 7/10⟩

/-- The same vector with rent 50 (a rental project). -/
def sampleRental : Inputs := ⟨0, 0, 100, 50, 12, 1, 7/20, 7/10⟩

/-- The same vector with `0` typed into the debt-ratio field — every
validation check still passes. -/
def sampleZeroRatio : Inputs := ⟨0, 0, 100, 0, 12, 1, 0, 7/10⟩

/-! ## Helper lemmas -/

theorem tauxMensuel_eq (t : ℚ) : tauxMensuel t = t / 1200 := by
  unfold tauxMensuel; ring

theorem tauxMensuel_pos {t : ℚ} (h : 0 < t) : 0 < tauxMensuel t := by
  unfold tauxMensuel; positivity

theorem one_lt_pow_base {t : ℚ} {n : ℤ} (ht : 0 < t) (hn : 0 < n) :
    1 < (1 + tauxMensuel t) ^ n :=
  one_lt_zpow₀ (by linarith [tauxMensuel_pos ht]) hn

/-- The annuity-form denominator `1 - (1+tauxMensuel)^(-n)` is positive for a
positive rate and term. -/
theorem denom_pos {t : ℚ} {n : ℤ} (ht : 0 < t) (hn : 0 < n) :
    0 < 1 - (1 + tauxMensuel t) ^ (-n) := by
  have hA1 : 1 < (1 + tauxMensuel t) ^ n := one_lt_pow_base ht hn
  rw [zpow_neg]
  have : ((1 + tauxMensuel t) ^ n)⁻¹ < 1 := by
    rw [inv_lt_one_iff₀]; right; exact hA1
  linarith

/-- The annuity-form denominator grows strictly with the term. -/
theorem denom_lt {t : ℚ} {n1 n2 : ℤ} (ht : 0 < t) (h12 : n1 < n2) :
    1 - (1 + tauxMensuel t) ^ (-n1) < 1 - (1 + tauxMensuel t) ^ (-n2) := by
  have hb : 1 < 1 + tauxMensuel t := by linarith [tauxMensuel_pos ht]
  have := zpow_lt_zpow_right₀ hb (neg_lt_neg h12)
  linarith

/-- The factor of line 114 equals the annuity closed form
`tauxMensuel / (1 - (1+tauxMensuel)^(-n))`. -/
theorem facteurPMT_closed {t : ℚ} {n : ℤ} (ht : 0 < t) (hn : 0 < n) :
    facteurPMT t n = tauxMensuel t / (1 - (1 + tauxMensuel t) ^ (-n)) := by
  have htm : 0 < tauxMensuel t := tauxMensuel_pos ht
  have hA1 : 1 < (1 + tauxMensuel t) ^ n := one_lt_pow_base ht hn
  have h1 : (1 + tauxMensuel t) ^ n ≠ 0 := (zpow_pos (by linarith) n).ne'
  have h2 : (1 + tauxMensuel t) ^ n - 1 ≠ 0 := sub_ne_zero.mpr (ne_of_gt hA1)
  unfold facteurPMT
  rw [zpow_neg]
  rw [div_eq_div_iff h2 (by
    have hlt : ((1 + tauxMensuel t) ^ n)⁻¹ < 1 := by
      rw [inv_lt_one_iff₀]; right; exact hA1
    linarith)]
  field_simp
  ring

theorem facteurPMT_pos {t : ℚ} {n : ℤ} (ht : 0 < t) (hn : 0 < n) :
    0 < facteurPMT t n := by
  have htm : 0 < tauxMensuel t := tauxMensuel_pos ht
  have hA1 : 1 < (1 + tauxMensuel t) ^ n := one_lt_pow_base ht hn
  have hA0 : (0:ℚ) < (1 + tauxMensuel t) ^ n := by linarith
  unfold facteurPMT
  exact div_pos (by positivity) (by linarith)

/-- `part1` (the present-value-of-annuity factor of line 123) is positive for
a positive rate and term. -/
theorem part1_pos {i : Inputs} (ht : 0 < i.tauxAnnuel)
    (hn : 0 < i.nbMensualites) : 0 < part1 i :=
  div_pos (denom_pos ht hn) (tauxMensuel_pos ht)

/-! ## Claims -/

/-- C1: For every Valid input vector (so with `annualRatePercent > 0`) the
monthly payment of either variant equals the closed-form annuity value
`principal * monthlyRate / (1 - (1 + monthlyRate)^(-termMonths))` with
`monthlyRate = annualRatePercent / 1200`, and for `annualRatePercent == 0`
(which both variants' own validation rejects, so stated of the payment
helper itself) the simpler variant's helper returns
`principal / termMonths`. -/
theorem payment_closed_form (i : Inputs) (h : Valid i) :
    mensualiteProjet i.prix i.tauxAnnuel i.nbMensualites
        = i.prix * (i.tauxAnnuel / 1200) /
            (1 - (1 + i.tauxAnnuel / 1200) ^ (-i.nbMensualites))
      ∧ calculateMensualiteProjet i.prix i.tauxAnnuel i.nbMensualites
        = i.prix * (i.tauxAnnuel / 1200) /
            (1 - (1 + i.tauxAnnuel / 1200) ^ (-i.nbMensualites))
      ∧ calculateMensualiteProjet i.prix 0 i.nbMensualites
        = i.prix / (i.nbMensualites : ℚ) := by
  obtain ⟨-, -, -, -, ht, hn⟩ := h
  refine ⟨?_, ?_, ?_⟩
  · unfold mensualiteProjet
    rw [facteurPMT_closed ht hn, tauxMensuel_eq, mul_div_assoc]
  · unfold calculateMensualiteProjet
    rw [if_neg ht.ne']
  · unfold calculateMensualiteProjet
    rw [if_pos rfl]

/-- Witness for C1 at the concrete Valid vector `sample`. -/
theorem payment_closed_form_witness :
    Valid sample ∧
      (mensualiteProjet sample.prix sample.tauxAnnuel sample.nbMensualites
          = sample.prix * (sample.tauxAnnuel / 1200) /
              (1 - (1 + sample.tauxAnnuel / 1200) ^ (-sample.nbMensualites))
        ∧ calculateMensualiteProjet sample.prix sample.tauxAnnuel
              sample.nbMensualites
          = sample.prix * (sample.tauxAnnuel / 1200) /
              (1 - (1 + sample.tauxAnnuel / 1200) ^ (-sample.nbMensualites))
        ∧ calculateMensualiteProjet sample.prix 0 sample.nbMensualites
          = sample.prix / (sample.nbMensualites : ℚ)) :=
  ⟨by norm_num [Valid, sample],
    payment_closed_form sample (by norm_num [Valid, sample])⟩

/-- C6: For fixed price and positive annual rate, the monthly payment is
strictly decreasing in the (positive) loan term. -/
theorem payment_strict_anti (prix tauxAnnuel : ℚ) (n1 n2 : ℤ)
    (hp : 0 < prix) (ht : 0 < tauxAnnuel) (h1 : 0 < n1) (h12 : n1 < n2) :
    mensualiteProjet prix tauxAnnuel n2 < mensualiteProjet prix tauxAnnuel n1 := by
  have h2 : 0 < n2 := lt_trans h1 h12
  have htm : 0 < tauxMensuel tauxAnnuel := tauxMensuel_pos ht
  unfold mensualiteProjet
  rw [facteurPMT_closed ht h1, facteurPMT_closed ht h2]
  have hd1 : 0 < 1 - (1 + tauxMensuel tauxAnnuel) ^ (-n1) := denom_pos ht h1
  have hlt := denom_lt ht h12 (t := tauxAnnuel)
  exact mul_lt_mul_of_pos_left (div_lt_div_of_pos_left htm hd1 hlt) hp

/-- Witness for C6: a 2-month loan at price 100 and 12 % costs strictly
less per month than a 1-month loan. -/
theorem payment_strict_anti_witness :
    (0:ℚ) < 100 ∧ (0:ℚ) < 12 ∧ (0:ℤ) < 1 ∧ (1:ℤ) < 2 ∧
      mensualiteProjet 100 12 2 < mensualiteProjet 100 12 1 :=
  ⟨by norm_num, by norm_num, by norm_num, by norm_num,
    payment_strict_anti 100 12 1 2 (by norm_num) (by norm_num) (by norm_num)
      (by norm_num)⟩

/-- C9: For every Valid input vector, the payment factor `facteurPMT` and
the monthly payment `mensualiteProjet` are strictly positive. -/
theorem payment_factor_pos (i : Inputs) (h : Valid i) :
    0 < facteurPMT i.tauxAnnuel i.nbMensualites ∧
      0 < mensualiteProjet i.prix i.tauxAnnuel i.nbMensualites := by
  obtain ⟨-, -, hp, -, ht, hn⟩ := h
  have hf := facteurPMT_pos ht hn
  exact ⟨hf, mul_pos hp hf⟩

/-- Witness for C9 at the concrete Valid vector `sample`. -/
theorem payment_factor_pos_witness :
    Valid sample ∧
      (0 < facteurPMT sample.tauxAnnuel sample.nbMensualites ∧
        0 < mensualiteProjet sample.prix sample.tauxAnnuel
              sample.nbMensualites) :=
  ⟨by norm_num [Valid, sample],
    payment_factor_pos sample (by norm_num [Valid, sample])⟩

/-- Inversion of `toInputs`: a successful parse pins every raw field. -/
theorem toInputs_eq_some {r : RawInputs} {i : Inputs}
    (h : toInputs r = some i) :
    r = ⟨some i.salaire, some i.mensualiteActuel, some i.prix, some i.loyer,
          some i.tauxAnnuel, some i.nbMensualites, some i.endettementMax,
          some i.loyerPrisEnCompte⟩ := by
  unfold toInputs at h
  split at h
  · cases h
    ext <;> simp_all
  · exact Option.noConfusion h

/-- C2: A computation cycle produces a DerivedResult exactly when every
field parses and `prix > 0`, `tauxAnnuel > 0`, `nbMensualites > 0`,
`loyer ≥ 0`, `salaire ≥ 0`, `mensualiteActuel ≥ 0` hold; the ratio fields
only need to be numeric. -/
theorem valid_iff_constraints (r : RawInputs) :
    (calculate r).isSome = true ↔
      ∃ (s m p l t : ℚ) (n : ℤ) (e lp : ℚ),
        r = ⟨some s, some m, some p, some l, some t, some n, some e,
              some lp⟩ ∧
          0 < p ∧ 0 < t ∧ 0 < n ∧ 0 ≤ l ∧ 0 ≤ s ∧ 0 ≤ m := by
  constructor
  · intro h
    unfold calculate at h
    split at h
    · simp at h
    · rename_i i heq
      by_cases hv : Valid i
      · obtain ⟨hs, hm, hp, hl, ht, hn⟩ := hv
        exact ⟨i.salaire, i.mensualiteActuel, i.prix, i.loyer, i.tauxAnnuel,
          i.nbMensualites, i.endettementMax, i.loyerPrisEnCompte,
          toInputs_eq_some heq, hp, ht, hn, hl, hs, hm⟩
      · rw [if_neg hv] at h
        simp at h
  · rintro ⟨s, m, p, l, t, n, e, lp, rfl, hp, ht, hn, hl, hs, hm⟩
    have hv : Valid ⟨s, m, p, l, t, n, e, lp⟩ := ⟨hs, hm, hp, hl, ht, hn⟩
    simp only [calculate, toInputs]
    rw [if_pos hv]
    rfl

/-- C8: A cycle writes the store exactly once, with the input snapshot, when
the computation is Valid, and leaves the store untouched with no write when
it is Invalid. -/
theorem persistence_once (store r : RawInputs) :
    calculateCycle store r =
      if (calculate r).isSome then ⟨r, 1, calculate r⟩
      else ⟨store, 0, none⟩ := by
  cases htoi : toInputs r with
  | none => simp [calculateCycle, calculate, htoi]
  | some i =>
      by_cases hv : Valid i
      · simp [calculateCycle, calculate, htoi, hv]
      · simp [calculateCycle, calculate, htoi, hv]

/-- C3 counterexample: at the Valid vector `sample` (price 100, rate 12 %,
1 month, rent 0) the claim "cashFlow, grossYield, targetPrice and
reductionCible all evaluate to their zero/no-op fallback values" fails:
`cashflow` is `-101` (it is computed unconditionally, line 118) and
`reductionCible` is `100`, not a zero fallback. -/
theorem rent_zero_cex :
    Valid sample ∧ sample.loyer = 0 ∧ isRentalProject sample = false ∧
      cashflow sample = -101 ∧ cashflow sample ≠ 0 ∧
      reductionCible sample = 100 := by
  refine ⟨by norm_num [Valid, sample], rfl,
    by norm_num [isRentalProject, sample], ?_, ?_, ?_⟩
  · norm_num [cashflow, mensualiteProjetI, mensualiteProjet, facteurPMT,
      tauxMensuel, sample]
  · norm_num [cashflow, mensualiteProjetI, mensualiteProjet, facteurPMT,
      tauxMensuel, sample]
  · norm_num [reductionCible, prixCibleRendement, rendementSouhaite, part1,
      tauxMensuel, sample]

/-- C3 amended: for a Valid vector with `loyer = 0`, `isRentalProject` is
false and `rendementBrut` and `prixCibleRendement` take their zero
fallbacks, but `cashflow` equals minus the monthly payment (it has no
fallback) and `reductionCible` equals `100`; none of them is presented
because the rental block is hidden. -/
theorem rent_zero_amended (i : Inputs) (hv : Valid i) (hl : i.loyer = 0) :
    isRentalProject i = false ∧ cashflow i = -(mensualiteProjetI i) ∧
      rendementBrut i = 0 ∧ prixCibleRendement i = 0 ∧
      reductionCible i = 100 := by
  obtain ⟨-, -, hp, -, -, -⟩ := hv
  have h3 : rendementBrut i = 0 := by
    rw [rendementBrut, rendementBrutAt, if_neg]
    rintro ⟨-, h⟩
    rw [hl] at h
    exact lt_irrefl 0 h
  have h4 : prixCibleRendement i = 0 := by
    rw [prixCibleRendement, if_neg]
    rintro ⟨-, h⟩
    rw [hl] at h
    exact lt_irrefl 0 h
  refine ⟨by simp [isRentalProject, hl], by rw [cashflow, hl]; ring, h3, h4, ?_⟩
  rw [reductionCible, if_pos hp, h4, sub_zero, div_self hp.ne', one_mul]

/-- Witness for the amended C3 at the concrete vector `sample`. -/
theorem rent_zero_amended_witness :
    Valid sample ∧ sample.loyer = 0 ∧
      (isRentalProject sample = false ∧
        cashflow sample = -(mensualiteProjetI sample) ∧
        rendementBrut sample = 0 ∧ prixCibleRendement sample = 0 ∧
        reductionCible sample = 100) :=
  ⟨by norm_num [Valid, sample], rfl,
    rent_zero_amended sample (by norm_num [Valid, sample]) rfl⟩

/-- C4 counterexample: the vector `sampleZeroRatio` (a `0` typed into the
debt-ratio field) passes every validation check, yet the divisor
`endettementMax * part1` of the `rendementSouhaite` division (line 125) is
zero and that division carries no conditional fallback, so not every
division of the engine is guarded on Valid inputs. -/
theorem divisions_guarded_cex :
    Valid sampleZeroRatio ∧ ¬ divisionsGuarded sampleZeroRatio := by
  refine ⟨by norm_num [Valid, sampleZeroRatio], fun h => ?_⟩
  exact h.2.2.2.2.2.1 (by norm_num [sampleZeroRatio])

/-- C4 amended: for every Valid vector whose debt-ratio field is nonzero,
every division site of the engine has a nonzero divisor whenever its guard
holds (and the `rendementSouhaite` site, which has no guard, has a nonzero
divisor outright). -/
theorem divisions_guarded_amended (i : Inputs) (hv : Valid i)
    (he : i.endettementMax ≠ 0) : divisionsGuarded i := by
  obtain ⟨hs, hm, hp, hl, ht, hn⟩ := hv
  have htm := tauxMensuel_pos ht
  have hA1 := one_lt_pow_base ht hn (t := i.tauxAnnuel)
  have hpp := part1_pos ht hn
  refine ⟨fun h => h.ne', sub_ne_zero.mpr (ne_of_gt hA1), fun h => h.ne',
    fun h => h.1.ne', htm.ne', mul_ne_zero he hpp.ne',
    fun h => div_ne_zero h.1.ne' (by norm_num), fun h => h.ne',
    fun h => h.ne', fun h => h.2.ne'⟩

/-- Witness for the amended C4 at the concrete vector `sample`
(debt-ratio field 35 %). -/
theorem divisions_guarded_amended_witness :
    Valid sample ∧ sample.endettementMax ≠ 0 ∧ divisionsGuarded sample :=
  ⟨by norm_num [Valid, sample], by norm_num [sample],
    divisions_guarded_amended sample (by norm_num [Valid, sample])
      (by norm_num [sample])⟩

/-- C5: For every Valid vector, `prix = prixAcceptable` makes
`isNegotiationRequired` false and, on a rental project,
`prix = prixCibleRendement` makes `shouldShowTargetPrice` true (both
boundaries inclusive); in general `isNegotiationRequired` decides
`prix > prixAcceptable` and `shouldShowTargetPrice` decides
`loyer > 0 ∧ prix ≥ prixCibleRendement`. -/
theorem visibility_boundaries (i : Inputs) (_hv : Valid i) :
    (i.prix = prixAcceptable i → isNegotiationRequired i = false) ∧
      (0 < i.loyer → i.prix = prixCibleRendement i →
        shouldShowTargetPrice i = true) ∧
      isNegotiationRequired i = decide (prixAcceptable i < i.prix) ∧
      shouldShowTargetPrice i =
        (decide (0 < i.loyer) && decide (prixCibleRendement i ≤ i.prix)) := by
  refine ⟨?_, ?_, rfl, rfl⟩
  · intro h
    simp [isNegotiationRequired, ← h]
  · intro hl h
    simp [shouldShowTargetPrice, isRentalProject, hl, ← h]

/-- Witness for C5 at the concrete Valid rental vector `sampleRental`. -/
theorem visibility_boundaries_witness :
    Valid sampleRental ∧
      ((sampleRental.prix = prixAcceptable sampleRental →
          isNegotiationRequired sampleRental = false) ∧
        (0 < sampleRental.loyer →
          sampleRental.prix = prixCibleRendement sampleRental →
            shouldShowTargetPrice sampleRental = true) ∧
        isNegotiationRequired sampleRental =
          decide (prixAcceptable sampleRental < sampleRental.prix) ∧
        shouldShowTargetPrice sampleRental =
          (decide (0 < sampleRental.loyer) &&
            decide (prixCibleRendement sampleRental ≤ sampleRental.prix))) :=
  ⟨by norm_num [Valid, sampleRental],
    visibility_boundaries sampleRental (by norm_num [Valid, sampleRental])⟩

/-- C7: For every Valid vector with positive rent and positive desired
yield, the gross-yield formula evaluated at `prixCibleRendement` instead of
the purchase price gives exactly `rendementSouhaite`. -/
theorem gross_yield_at_target (i : Inputs) (_hv : Valid i) (hl : 0 < i.loyer)
    (hr : 0 < rendementSouhaite i) :
    rendementBrutAt (prixCibleRendement i) i.loyer = rendementSouhaite i := by
  have hpc : prixCibleRendement i
      = i.loyer * 12 / (rendementSouhaite i / 100) := by
    rw [prixCibleRendement, if_pos ⟨hr, hl⟩]
  have hpcpos : 0 < prixCibleRendement i := by
    rw [hpc]
    exact div_pos (mul_pos hl (by norm_num)) (div_pos hr (by norm_num))
  rw [rendementBrutAt, if_pos ⟨hpcpos, hl⟩, hpc]
  have h1 : i.loyer ≠ 0 := hl.ne'
  have h2 : rendementSouhaite i ≠ 0 := hr.ne'
  field_simp
  ring

/-- Witness for C7 at the concrete Valid rental vector `sampleRental`. -/
theorem gross_yield_at_target_witness :
    Valid sampleRental ∧ 0 < sampleRental.loyer ∧
      0 < rendementSouhaite sampleRental ∧
      rendementBrutAt (prixCibleRendement sampleRental) sampleRental.loyer
        = rendementSouhaite sampleRental :=
  ⟨by norm_num [Valid, sampleRental], by norm_num [sampleRental],
    by norm_num [rendementSouhaite, part1, tauxMensuel, sampleRental],
    gross_yield_at_target sampleRental (by norm_num [Valid, sampleRental])
      (by norm_num [sampleRental])
      (by norm_num [rendementSouhaite, part1, tauxMensuel, sampleRental])⟩

/-- C10: For every Valid vector with non-positive acceptable monthly
payment, the acceptable price is `0` and, since validity forces
`prix > 0`, negotiation is flagged as required. -/
theorem nonpos_capacity_negotiation (i : Inputs) (hv : Valid i)
    (h : mensualiteCible i ≤ 0) :
    prixAcceptable i = 0 ∧ isNegotiationRequired i = true := by
  have hpa : prixAcceptable i = 0 := by
    rw [prixAcceptable, if_neg]
    rintro ⟨h1, -⟩
    exact absurd h1 (not_lt.mpr h)
  have hp : 0 < i.prix := hv.2.2.1
  refine ⟨hpa, ?_⟩
  simp [isNegotiationRequired, hpa, hp]

/-- Witness for C10 at the concrete vector `sample` (no income and no rent,
so the acceptable monthly payment is `0`). -/
theorem nonpos_capacity_negotiation_witness :
    Valid sample ∧ mensualiteCible sample ≤ 0 ∧
      (prixAcceptable sample = 0 ∧ isNegotiationRequired sample = true) :=
  ⟨by norm_num [Valid, sample],
    by norm_num [mensualiteCible, denominateurDette, sample],
    nonpos_capacity_negotiation sample (by norm_num [Valid, sample])
      (by norm_num [mensualiteCible, denominateurDette, sample])⟩

end Renta
